import Mathlib

/-!
Verification of the nitpick terminal GitHub browser.

This file gives a shallow embedding of the program's data model and of the
operations its specification talks about:

* the raw records (repository, pull request, review comment) as carried by the
  GitHub API messages (`internal/github`, package `github` in `part_002`);
* the item adapters of `internal/ui/items.go` (title / description / filter
  text formatting);
* the post-fetch sorting performed by `FetchPRs` and `FetchComments`
  (`part_002`);
* the navigation core of `internal/app/app.go`: the `App` model, its `Update`
  event-handling step, and the parts of `View` that are observable state
  (the loading / error / content screen selection and the detail-viewport
  height fix-up).

Modelling conventions, recorded once here:

* Go `time.Time` values are modelled as natural numbers (`Time`); the external
  `time.Format` calls are modelled by an injective rendering (`formatDate`,
  `formatDateTime`). Only presence, equality and order of timestamps are ever
  relevant to the verified properties, never the concrete text of a date.
* Nullable GitHub fields (`*github.Timestamp` and friends) are `Option`s; the
  Go getters `GetX` that return a zero value for nil receivers are modelled by
  plain record fields holding that zero value (empty string, `0`, `false`).
* The external bubbles widgets (list, viewport) are modelled at their
  interface: the fields the application code reads or writes (items, cursor
  index, size, whether a filter is being entered, scroll offset) are explicit,
  and the trailing `widget.Update(msg)` delegation at the bottom of
  `App.Update` is modelled as the identity with no command, since every
  message the application-level claims depend on is handled (and returned
  early) by the application's own code.
* `sort.Slice` promises a reordering that is sorted with respect to the given
  comparator and nothing more; it is modelled by `List.insertionSort` run with
  the non-strict relation induced by the source's comparator (an element may
  precede another iff the comparator does not order the second strictly before
  the first). Every property proved about the sorted output depends only on
  this sortedness contract, never on which tie-breaking the algorithm picks.
-/

namespace Nitpick

/-- Stand-in for the external `time.Format("2006-01-02")` call: an injective
rendering of a timestamp. No claim depends on the concrete date text. -/
def formatDate (t : Nat) : String := toString t

/-- Stand-in for the external `time.Format("2006-01-02 15:04")` call. -/
def formatDateTime (t : Nat) : String := toString t

/-- A Go `error` value (only its presence and identity matter). -/
abbrev GoError := String

/-- Repository record, the fields read by the program (`github.Repository`).
`isPrivate` is the Go field `Private` (renamed: `private` is a Lean keyword). -/
structure Repository where
  ownerLogin : String
  name : String
  description : String
  language : String
  updatedAt : Option Nat
  isPrivate : Bool
  fork : Bool
deriving DecidableEq, Repr

/-- Pull-request record, the fields read by the program (`github.PullRequest`). -/
structure PullRequest where
  number : Nat
  title : String
  userLogin : String
  createdAt : Option Nat
  draft : Bool
  merged : Bool
deriving DecidableEq, Repr

/-- Review-comment record (`github.PullRequestComment`). Line numbers keep the
Go zero-value convention: `0` means the field is unset. -/
structure PullRequestComment where
  body : String
  userLogin : String
  createdAt : Option Nat
  updatedAt : Option Nat
  path : String
  line : Nat
  startLine : Nat
  originalLine : Nat
  originalStartLine : Nat
  inReplyTo : Nat
  diffHunk : String
  htmlURL : String
deriving DecidableEq, Repr

/-! ### Item adapters (`internal/ui/items.go`) -/

/-- `RepoItem.FilterValue` (items.go lines 17-19). -/
def RepoItem.filterValue (r : Repository) : String := r.name

/-- `RepoItem.Title` (items.go lines 22-42): `owner/name` with private / fork
indicator glyphs appended. -/
def RepoItem.title (r : Repository) : String :=
  let name := if r.ownerLogin = "" then r.name else r.ownerLogin ++ "/" ++ r.name
  let indicators :=
    (if r.isPrivate then ["🔒"] else []) ++ (if r.fork then ["🍴"] else [])
  if indicators.length > 0 then name ++ " " ++ String.intercalate " " indicators
  else name

/-- `RepoItem.Description` (items.go lines 45-67): body text (placeholder when
empty) with optional language and updated-date segments. -/
def RepoItem.description (r : Repository) : String :=
  let desc := if r.description = "" then "No description" else r.description
  let lang := r.language
  let updated := match r.updatedAt with
    | some t => formatDate t
    | none => ""
  if lang ≠ "" ∧ updated ≠ "" then desc ++ " • " ++ lang ++ " • Updated " ++ updated
  else if lang ≠ "" then desc ++ " • " ++ lang
  else if updated ≠ "" then desc ++ " • Updated " ++ updated
  else desc

/-- `PRItem.FilterValue` (items.go lines 75-77). -/
def PRItem.filterValue (p : PullRequest) : String := p.title

/-- `PRItem.Title` (items.go lines 80-82). -/
def PRItem.title (p : PullRequest) : String :=
  "#" ++ toString p.number ++ " " ++ p.title

/-- `PRItem.Description` (items.go lines 85-107): optional `[DRAFT, MERGED] `
prefix followed by author and creation date. -/
def PRItem.description (p : PullRequest) : String :=
  let created := match p.createdAt with
    | some t => formatDate t
    | none => ""
  let status := (if p.draft then ["DRAFT"] else []) ++ (if p.merged then ["MERGED"] else [])
  let statusStr := if status.length > 0 then "[" ++ String.intercalate ", " status ++ "] " else ""
  statusStr ++ "by " ++ p.userLogin ++ " • Created " ++ created

/-- `CommentItem.FilterValue` (items.go lines 115-117). -/
def CommentItem.filterValue (c : PullRequestComment) : String := c.body

/-- The regexp substitution `^\s*#\s*` applied in `CommentItem.Title` to a line
that has already been trimmed: a single leading `#` and the whitespace after it
are removed. -/
def stripHeadingMarker (s : String) : String :=
  if s.startsWith "#" then (s.drop 1).trimLeft else s

/-- `CommentItem.Title` (items.go lines 120-141): the first non-blank line of
the body, heading marker stripped, truncated to 80 with an ellipsis. The Go
byte-indexed truncation is modelled at character granularity; no claim depends
on the truncation. -/
def CommentItem.title (c : PullRequestComment) : String :=
  let lines := (c.body.trim).splitOn "\n"
  match lines.find? (fun l => l.trim ≠ "") with
  | some l =>
    let line := stripHeadingMarker l.trim
    if line.length > 80 then line.take 77 ++ "..." else line
  | none => "Empty comment"

/-- The current-line segment of the line information built in
`CommentItem.Description` (items.go lines 171-180). -/
def CommentItem.currentLineSeg (c : PullRequestComment) : String :=
  if c.line ≠ 0 then
    if c.startLine ≠ 0 ∧ c.startLine ≠ c.line then
      " L" ++ toString c.startLine ++ "-" ++ toString c.line
    else
      " L" ++ toString c.line
  else ""

/-- The original-line segment of the line information built in
`CommentItem.Description` (items.go lines 182-191). -/
def CommentItem.origLineSeg (c : PullRequestComment) : String :=
  if c.originalLine ≠ 0 ∧ c.originalLine ≠ c.line then
    if c.originalStartLine ≠ 0 ∧ c.originalStartLine ≠ c.originalLine then
      " (orig L" ++ toString c.originalStartLine ++ "-" ++ toString c.originalLine ++ ")"
    else
      " (orig L" ++ toString c.originalLine ++ ")"
  else ""

/-- The `fileInfo` string built in `CommentItem.Description`
(items.go lines 161-192): path plus line information, present only when the
comment carries a file path. -/
def CommentItem.fileInfo (c : PullRequestComment) : String :=
  if c.path ≠ "" then
    " • " ++ c.path ++ CommentItem.currentLineSeg c ++ CommentItem.origLineSeg c
  else ""

/-- `CommentItem.Description` (items.go lines 144-195): author, timestamps
(with an `(updated ...)` suffix when the rendered update time differs from the
rendered creation time) and the file/line information. -/
def CommentItem.description (c : PullRequestComment) : String :=
  let created := match c.createdAt with
    | some t => formatDateTime t
    | none => ""
  let timeInfo := match c.updatedAt, c.createdAt with
    | some u, some _ =>
      let updated := formatDateTime u
      if updated ≠ created then created ++ " (updated " ++ updated ++ ")" else created
    | _, _ => created
  "by " ++ c.userLogin ++ " • " ++ timeInfo ++ CommentItem.fileInfo c

/-! ### Fetch-time sorting (`internal/github`, `part_002`) -/

/-- The comparison closure passed to `sort.Slice` in `FetchPRs`
(part_002 lines 112-114): `prs[i].GetNumber() > prs[j].GetNumber()`. -/
def prLessFn (a b : PullRequest) : Bool := decide (a.number > b.number)

/-- The non-strict order induced by `prLessFn` under the `sort.Slice`
contract: `a` may be placed before `b` iff the comparator does not order `b`
strictly before `a`. -/
def prKeep (a b : PullRequest) : Prop := prLessFn b a = false

instance : DecidableRel prKeep := fun _ _ => instDecidableEqBool _ _

instance : IsTotal PullRequest prKeep :=
  ⟨by intro a b; simp [prKeep, prLessFn, decide_eq_false_iff_not]; omega⟩

instance : IsTrans PullRequest prKeep :=
  ⟨by intro a b c; simp [prKeep, prLessFn, decide_eq_false_iff_not]; omega⟩

/-- The pull-request list delivered by `FetchPRs`: the fetched list reordered
by `sort.Slice` with `prLessFn` (part_002 lines 111-116), modelled as a sort
with respect to `prKeep`. -/
def sortPRs (l : List PullRequest) : List PullRequest :=
  List.insertionSort prKeep l

/-- The comparison closure passed to `sort.Slice` in `FetchComments`
(part_002 lines 147-160): nil timestamps sort as never-less (and anything
beats a nil on the right), otherwise `After` on the two times. -/
def commentLessFn (a b : PullRequestComment) : Bool :=
  match a.updatedAt, b.updatedAt with
  | none, none => false
  | none, some _ => false
  | some _, none => true
  | some x, some y => decide (x > y)

/-- The non-strict order induced by `commentLessFn` under the `sort.Slice`
contract. -/
def commentKeep (a b : PullRequestComment) : Prop := commentLessFn b a = false

instance : DecidableRel commentKeep := fun _ _ => instDecidableEqBool _ _

instance : IsTotal PullRequestComment commentKeep := by
  constructor
  intro a b
  unfold commentKeep commentLessFn
  rcases a.updatedAt with _ | x <;> rcases b.updatedAt with _ | y <;>
    simp [decide_eq_false_iff_not]
  omega

instance : IsTrans PullRequestComment commentKeep := by
  constructor
  intro a b c
  unfold commentKeep commentLessFn
  rcases a.updatedAt with _ | x <;> rcases b.updatedAt with _ | y <;>
    rcases c.updatedAt with _ | z <;>
    simp [decide_eq_false_iff_not]
  all_goals omega

/-- The comment list delivered by `FetchComments`: cloned and reordered by
`sort.Slice` with `commentLessFn` (part_002 lines 144-160), modelled as a sort
with respect to `commentKeep`. -/
def sortComments (l : List PullRequestComment) : List PullRequestComment :=
  List.insertionSort commentKeep l

/-! ### Navigation core (`internal/app/app.go`) -/

/-- The view state enum (app.go lines 20-28). -/
inductive State where
  | repos
  | prs
  | comments
  | commentDetail
deriving DecidableEq, Repr

/-- Depth of a state in the drill-down hierarchy. -/
def State.depth : State → Nat
  | .repos => 0
  | .prs => 1
  | .comments => 2
  | .commentDetail => 3

/-- Interface model of the external bubbles `list.Model`: the fields the
application code reads or writes. `settingFilter` is what `SettingFilter()`
reports (a filter is being typed). -/
structure ListW (α : Type) where
  items : List α
  index : Nat
  width : Int
  height : Int
  settingFilter : Bool
deriving DecidableEq

/-- Fresh empty list widget, as produced in `New` (app.go lines 60-76). -/
def ListW.empty {α : Type} : ListW α :=
  { items := [], index := 0, width := 0, height := 0, settingFilter := false }

/-- `list.Model.SelectedItem()`: the item under the cursor, or nothing. -/
def ListW.selectedItem {α : Type} (l : ListW α) : Option α := l.items.get? l.index

/-- `list.Model.SetSize`. -/
def ListW.setSize {α : Type} (l : ListW α) (w h : Int) : ListW α :=
  { l with width := w, height := h }

/-- `list.Model.SetItems`. -/
def ListW.setItems {α : Type} (l : ListW α) (its : List α) : ListW α :=
  { l with items := its }

/-- Modelled from the spec: the external bubbles list widget, on receiving the
back key while a filter is being entered, clears the filter instead of
navigating (the delegation at app.go lines 126-144). -/
def ListW.escWhileFiltering {α : Type} (l : ListW α) : ListW α :=
  { l with settingFilter := false }

/-- Interface model of the external bubbles `viewport.Model`: dimensions and
scroll offset. The content string and its height are not modelled, so scroll
clamping against the content bottom is approximated (no claim reads the
offset). -/
structure Viewport where
  width : Int
  height : Int
  yOffset : Int
deriving DecidableEq, Repr

/-- Fresh viewport, as produced by `viewport.New(0, 0)`. -/
def Viewport.empty : Viewport := { width := 0, height := 0, yOffset := 0 }

/-- `viewport.Model.LineUp(1)`. -/
def Viewport.lineUp (v : Viewport) : Viewport :=
  { v with yOffset := max (v.yOffset - 1) 0 }

/-- `viewport.Model.LineDown(1)` (content-bottom clamping not modelled). -/
def Viewport.lineDown (v : Viewport) : Viewport :=
  { v with yOffset := v.yOffset + 1 }

/-- `viewport.Model.HalfViewUp()`. -/
def Viewport.halfViewUp (v : Viewport) : Viewport :=
  { v with yOffset := max (v.yOffset - v.height / 2) 0 }

/-- `viewport.Model.HalfViewDown()` (content-bottom clamping not modelled). -/
def Viewport.halfViewDown (v : Viewport) : Viewport :=
  { v with yOffset := v.yOffset + v.height / 2 }

/-- `viewport.Model.GotoTop()`. -/
def Viewport.gotoTop (v : Viewport) : Viewport := { v with yOffset := 0 }

/-- `viewport.Model.GotoBottom()`: jumps to the content bottom, which is not
modelled; dimensions are unaffected, which is all any claim reads. -/
def Viewport.gotoBottom (v : Viewport) : Viewport := v

/-- Key events, grouped by the branches of the `msg.String()` switch in
`Update` (app.go lines 120-190). `quitKey` covers both `ctrl+c` and `q`;
each scroll constructor covers the two bindings of its branch; `other` is any
key string without a case of its own. -/
inductive Key where
  | quitKey
  | esc
  | enter
  | keyC
  | keyT
  | keyR
  | scrollUp
  | scrollDown
  | halfPageUp
  | halfPageDown
  | top
  | bottom
  | other
deriving DecidableEq, Repr

deriving instance DecidableEq for Except

/-- Messages consumed by `Update`: window resize, key input, the three fetch
results (`ReposMsg` / `PRsMsg` / `CommentsMsg`, each a list or an error), and
the copy-status clear timer tick. -/
inductive Msg where
  | windowSize (w h : Int)
  | key (k : Key)
  | reposMsg (res : Except GoError (List Repository))
  | prsMsg (res : Except GoError (List PullRequest))
  | commentsMsg (res : Except GoError (List PullRequestComment))
  | clearCopyStatus
deriving DecidableEq

/-- Commands the event-handling step can issue back to the runtime. -/
inductive Cmd where
  | quit
  | fetchRepos
  | fetchPRs (r : Repository)
  | fetchComments (r : Repository) (p : PullRequest)
  | clearStatusTimer
deriving DecidableEq

/-- The application state (app.go lines 30-49). The `client` and `promptGen`
collaborators carry no observable state and are omitted. -/
structure App where
  state : State
  repoList : ListW Repository
  prList : ListW PullRequest
  commentList : ListW PullRequestComment
  commentViewport : Viewport
  currentRepo : Option Repository
  currentPR : Option PullRequest
  currentComment : Option PullRequestComment
  loading : Bool
  err : Option GoError
  width : Int
  height : Int
  copyStatus : String
  showReplies : Bool
  useSimplePrompt : Bool
deriving DecidableEq

/-- The state `New` constructs (app.go lines 81-92). -/
def initialApp : App where
  state := .repos
  repoList := ListW.empty
  prList := ListW.empty
  commentList := ListW.empty
  commentViewport := Viewport.empty
  currentRepo := none
  currentPR := none
  currentComment := none
  loading := true
  err := none
  width := 0
  height := 0
  copyStatus := ""
  showReplies := false
  useSimplePrompt := false

/-- `a.fetchPRs()` (app.go lines 445-450): no command without a current repo. -/
def App.fetchPRsCmd (a : App) : Option Cmd :=
  match a.currentRepo with
  | none => none
  | some r => some (.fetchPRs r)

/-- `a.fetchComments()` (app.go lines 453-458): no command unless both the
current repo and the current PR are set. -/
def App.fetchCommentsCmd (a : App) : Option Cmd :=
  match a.currentRepo, a.currentPR with
  | some r, some p => some (.fetchComments r p)
  | _, _ => none

/-- `handleEnter` (app.go lines 377-421). -/
def App.handleEnter (a : App) : App × Option Cmd :=
  match a.state with
  | .repos =>
    match a.repoList.selectedItem with
    | some r =>
      let a := { a with currentRepo := some r, state := .prs, loading := true }
      (a, a.fetchPRsCmd)
    | none => (a, none)
  | .prs =>
    match a.prList.selectedItem with
    | some p =>
      let a := { a with currentPR := some p, state := .comments, loading := true }
      (a, a.fetchCommentsCmd)
    | none => (a, none)
  | .comments =>
    match a.commentList.selectedItem with
    | some c =>
      let viewportHeight := max (a.height - 6) 1
      ({ a with
          currentComment := some c
          state := .commentDetail
          commentViewport :=
            { a.commentViewport with width := a.width - 4, height := viewportHeight } },
        none)
    | none => (a, none)
  | .commentDetail => (a, none)

/-- `handleBack` (app.go lines 424-437): move to the previous level and clear
the reference owned by the level being left; no case for the root state. -/
def App.handleBack (a : App) : App × Option Cmd :=
  match a.state with
  | .repos => (a, none)
  | .prs => ({ a with state := .repos, currentRepo := none }, none)
  | .comments => ({ a with state := .prs, currentPR := none }, none)
  | .commentDetail => ({ a with state := .comments, currentComment := none }, none)

/-- `handleCopyPrompt` (app.go lines 461-489). Prompt generation and the
clipboard call are external; the clipboard is modelled as succeeding, and only
the presence of a status message and the returned timer command are kept. -/
def App.handleCopyPrompt (a : App) : App × Option Cmd :=
  match a.currentRepo, a.currentPR, a.currentComment with
  | some _, some _, some _ =>
    let promptType := if a.useSimplePrompt then "Simple" else "Full"
    ({ a with copyStatus := "✅ " ++ promptType ++ " prompt copied to clipboard!" },
      some .clearStatusTimer)
  | _, _, _ =>
    ({ a with copyStatus := "Error: Missing context for prompt generation" }, none)

/-- `handleTogglePromptMode` (app.go lines 492-506). -/
def App.handleTogglePromptMode (a : App) : App × Option Cmd :=
  let a := { a with useSimplePrompt := !a.useSimplePrompt }
  let mode := if a.useSimplePrompt then "Simple" else "Full"
  ({ a with copyStatus := "🔄 Switched to " ++ mode ++ " prompt mode" },
    some .clearStatusTimer)

/-- `handleToggleReplies` (app.go lines 509-513): flip the setting, mark
loading and re-issue the comment fetch. -/
def App.handleToggleReplies (a : App) : App × Option Cmd :=
  let a := { a with showReplies := !a.showReplies, loading := true }
  (a, a.fetchCommentsCmd)

/-- The trailing widget delegation at the bottom of `Update` (app.go lines
241-252): the message is forwarded to the active external widget. The bubbles
widgets are modelled as leaving their state unchanged and returning no command
for every message that reaches this point; the messages they do act on (key
input at list levels: cursor movement and filter editing) never affect the
fields any claim reads. -/
def App.updateActiveWidget (a : App) (_msg : Msg) : App × Option Cmd := (a, none)

/-- `Update` (app.go lines 103-255), the event-handling step. -/
def App.update (a : App) (msg : Msg) : App × Option Cmd :=
  match msg with
  | .windowSize w h =>
    let a := { a with
      width := w
      height := h
      repoList := a.repoList.setSize (w - 4) (h - 4)
      prList := a.prList.setSize (w - 4) (h - 4)
      commentList := a.commentList.setSize (w - 4) (h - 7) }
    let availableHeight := if a.copyStatus ≠ "" then h - 5 - 2 else h - 5
    let a := { a with
      commentViewport :=
        { a.commentViewport with width := w - 4, height := availableHeight } }
    a.updateActiveWidget msg
  | .key k =>
    match k with
    | .quitKey => (a, some .quit)
    | .esc =>
      match a.state with
      | .repos =>
        if a.repoList.settingFilter then
          ({ a with repoList := a.repoList.escWhileFiltering }, none)
        else a.handleBack
      | .prs =>
        if a.prList.settingFilter then
          ({ a with prList := a.prList.escWhileFiltering }, none)
        else a.handleBack
      | .comments =>
        if a.commentList.settingFilter then
          ({ a with commentList := a.commentList.escWhileFiltering }, none)
        else a.handleBack
      | .commentDetail => a.handleBack
    | .enter => a.handleEnter
    | .keyC =>
      if a.state = .commentDetail then a.handleCopyPrompt else a.updateActiveWidget msg
    | .keyT =>
      if a.state = .commentDetail then a.handleTogglePromptMode else a.updateActiveWidget msg
    | .keyR =>
      if a.state = .comments then a.handleToggleReplies else a.updateActiveWidget msg
    | .scrollUp =>
      if a.state = .commentDetail then
        ({ a with commentViewport := a.commentViewport.lineUp }, none)
      else a.updateActiveWidget msg
    | .scrollDown =>
      if a.state = .commentDetail then
        ({ a with commentViewport := a.commentViewport.lineDown }, none)
      else a.updateActiveWidget msg
    | .halfPageUp =>
      if a.state = .commentDetail then
        ({ a with commentViewport := a.commentViewport.halfViewUp }, none)
      else a.updateActiveWidget msg
    | .halfPageDown =>
      if a.state = .commentDetail then
        ({ a with commentViewport := a.commentViewport.halfViewDown }, none)
      else a.updateActiveWidget msg
    | .top =>
      if a.state = .commentDetail then
        ({ a with commentViewport := a.commentViewport.gotoTop }, none)
      else a.updateActiveWidget msg
    | .bottom =>
      if a.state = .commentDetail then
        ({ a with commentViewport := a.commentViewport.gotoBottom }, none)
      else a.updateActiveWidget msg
    | .other => a.updateActiveWidget msg
  | .reposMsg res =>
    match res with
    | .error e => ({ a with loading := false, err := some e }, none)
    | .ok repos =>
      ({ a with loading := false, repoList := a.repoList.setItems repos
        }).updateActiveWidget msg
  | .prsMsg res =>
    match res with
    | .error e => ({ a with loading := false, err := some e }, none)
    | .ok prs =>
      ({ a with loading := false, prList := a.prList.setItems prs
        }).updateActiveWidget msg
  | .commentsMsg res =>
    match res with
    | .error e => ({ a with loading := false, err := some e }, none)
    | .ok cs =>
      let filtered := cs.filter (fun c => a.showReplies || c.inReplyTo == 0)
      ({ a with loading := false, commentList := a.commentList.setItems filtered
        }).updateActiveWidget msg
  | .clearCopyStatus => ({ a with copyStatus := "" }).updateActiveWidget msg

/-- The screen class `View` selects (app.go lines 258-269): the loading
early-return, then the full-screen error early-return, then the per-state
content layout. -/
inductive Screen where
  | loadingScreen
  | errorScreen (e : GoError)
  | contentScreen (s : State)
deriving DecidableEq, Repr

/-- The observable screen choice of `View` (app.go lines 258-293). -/
def App.viewScreen (a : App) : Screen :=
  if a.loading then .loadingScreen
  else
    match a.err with
    | some e => .errorScreen e
    | none => .contentScreen a.state

/-- The state mutation hidden in `View` (app.go lines 317-325): when the
content layout for `CommentDetail` is rendered — that is, when neither the
loading nor the error early-return fired — the viewport height is brought to
`max(height - 6, 1)`. -/
def App.viewFix (a : App) : App :=
  if a.loading then a
  else if a.err.isSome then a
  else if a.state = .commentDetail then
    { a with commentViewport :=
        { a.commentViewport with height := max (a.height - 6) 1 } }
  else a

/-- One full event step of the bubbletea loop: the `Update` call followed by
the render pass (`View` is invoked after every event and performs the viewport
height fix-up). -/
def App.processEvent (a : App) (msg : Msg) : App × Option Cmd :=
  let (a, cmd) := a.update msg
  (a.viewFix, cmd)

/-- The application state reached from `New`'s state after consuming a
sequence of events. -/
def runApp (ms : List Msg) : App :=
  ms.foldl (fun a m => (a.processEvent m).1) initialApp

/-! ### Helper lemmas -/

/-- Auxiliary: `Nat.toDigitsCore` never shrinks its accumulator. -/
theorem toDigitsCore_length_le (b : Nat) : ∀ (fuel n : Nat) (ds : List Char),
    ds.length ≤ (Nat.toDigitsCore b fuel n ds).length
  | 0, _, _ => Nat.le_refl _
  | fuel + 1, n, ds => by
    unfold Nat.toDigitsCore
    simp only []
    by_cases h : n / b = 0
    · simp [h]
    · simp only [h, if_false]
      exact Nat.le_trans (by simp) (toDigitsCore_length_le b fuel _ _)

/-- The decimal rendering of a natural number is never the empty string. -/
theorem natToString_ne_empty (n : Nat) : toString n ≠ "" := by
  show Nat.repr n ≠ ""
  have h : 1 ≤ (Nat.toDigits 10 n).length := by
    unfold Nat.toDigits Nat.toDigitsCore
    simp only []
    by_cases h : n / 10 = 0
    · simp [h]
    · simp only [h, if_false]
      exact Nat.le_trans (by simp) (toDigitsCore_length_le 10 _ _ _)
  intro hc
  have hd := congrArg String.data hc
  simp only [Nat.repr, List.asString] at hd
  rw [hd] at h
  simp at h

/-- A rendered date is never the empty string. -/
theorem formatDate_ne_empty (t : Nat) : formatDate t ≠ "" :=
  natToString_ne_empty t

/-! ### Concrete records used by scenario claims -/

/-- A repository with no description and no language but an update date. -/
def repoNoDescNoLang : Repository :=
  { ownerLogin := "alice", name := "proj", description := "", language := ""
    updatedAt := some 20240101, isPrivate := false, fork := false }

/-- Scenario comment for C9: `line=12, startLine=12, originalLine=12`. -/
def commentL12 : PullRequestComment :=
  { body := "Fix this", userLogin := "alice", createdAt := some 100, updatedAt := some 100
    path := "main.go", line := 12, startLine := 12, originalLine := 12
    originalStartLine := 12, inReplyTo := 0, diffHunk := "", htmlURL := "" }

/-- Scenario comment for C9: `line=20, startLine=15`. -/
def commentL15to20 : PullRequestComment :=
  { body := "Fix this", userLogin := "alice", createdAt := some 100, updatedAt := some 100
    path := "main.go", line := 20, startLine := 15, originalLine := 0
    originalStartLine := 0, inReplyTo := 0, diffHunk := "", htmlURL := "" }

/-- Scenario comment for C9: `line=20, startLine=20, originalLine=10,
originalStartLine=8`. -/
def commentOrig : PullRequestComment :=
  { body := "Fix this", userLogin := "alice", createdAt := some 100, updatedAt := some 100
    path := "main.go", line := 20, startLine := 20, originalLine := 10
    originalStartLine := 8, inReplyTo := 0, diffHunk := "", htmlURL := "" }

/-- Concrete pull request number 1. -/
def prOne : PullRequest :=
  { number := 1, title := "first", userLogin := "alice", createdAt := some 10
    draft := false, merged := false }

/-- Concrete pull request number 2. -/
def prTwo : PullRequest :=
  { number := 2, title := "second", userLogin := "bob", createdAt := some 20
    draft := false, merged := false }

/-- Comment without an update timestamp. -/
def commentNoTimeA : PullRequestComment :=
  { body := "a", userLogin := "alice", createdAt := some 100, updatedAt := none
    path := "", line := 0, startLine := 0, originalLine := 0
    originalStartLine := 0, inReplyTo := 0, diffHunk := "", htmlURL := "" }

/-- Another comment without an update timestamp. -/
def commentNoTimeB : PullRequestComment :=
  { body := "b", userLogin := "bob", createdAt := some 100, updatedAt := none
    path := "", line := 0, startLine := 0, originalLine := 0
    originalStartLine := 0, inReplyTo := 0, diffHunk := "", htmlURL := "" }

/-- Test helper: a minimal comment with a given body and reply target. -/
def mkComment (b : String) (reply : Nat) : PullRequestComment :=
  { body := b, userLogin := "alice", createdAt := some 100, updatedAt := some 100
    path := "", line := 0, startLine := 0, originalLine := 0
    originalStartLine := 0, inReplyTo := reply, diffHunk := "", htmlURL := "" }

/-- Scenario input for C5: five comments, two of which are replies. -/
def fiveComments : List PullRequestComment :=
  [mkComment "one" 0, mkComment "two" 0, mkComment "three" 41,
    mkComment "four" 0, mkComment "five" 77]

/-- Scenario state for C5: the application sitting at the Comments level with
replies hidden. -/
def commentsScenarioApp : App :=
  { initialApp with
      state := .comments
      currentRepo := some repoNoDescNoLang
      currentPR := some prOne
      loading := false }

/-- Scenario step for C5: the first fetch-comments result applied. -/
def c5afterFirstFetch : App :=
  (commentsScenarioApp.update (.commentsMsg (.ok fiveComments))).1

/-- Scenario step for C5: the replies toggle key pressed. -/
def c5afterToggle : App := (c5afterFirstFetch.update (.key .keyR)).1

/-- Scenario step for C5: the re-fetch of the same five comments applied. -/
def c5afterSecondFetch : App :=
  (c5afterToggle.update (.commentsMsg (.ok fiveComments))).1

/-! ### Claims about the item adapters -/

/-- C8: the item-adapter title and description functions are pure and
idempotent (in this embedding they are Lean functions, so two calls on the
same record are definitionally equal), and every conditional segment is
absent when its source field is empty or zero: the language segment and the
updated-date segment of the repository description, the draft/merged flag
prefix of the pull-request description, and the line-range segments of the
comment description. In the scenario of a repository with empty description
and empty language, the output is the description placeholder followed — with
a single separator and no dangling one for the omitted language — by only the
updated-date conditional segment. -/
theorem claim_c8 :
    (∀ r : Repository, RepoItem.title r = RepoItem.title r ∧
      RepoItem.description r = RepoItem.description r) ∧
    (∀ p : PullRequest, PRItem.title p = PRItem.title p ∧
      PRItem.description p = PRItem.description p) ∧
    (∀ c : PullRequestComment, CommentItem.title c = CommentItem.title c ∧
      CommentItem.description c = CommentItem.description c) ∧
    (∀ (r : Repository) (t : Nat), r.language = "" → r.updatedAt = some t →
      RepoItem.description r =
        (if r.description = "" then "No description" else r.description) ++
          " • Updated " ++ formatDate t) ∧
    (∀ r : Repository, r.language ≠ "" → r.updatedAt = none →
      RepoItem.description r =
        (if r.description = "" then "No description" else r.description) ++
          " • " ++ r.language) ∧
    (∀ r : Repository, r.language = "" → r.updatedAt = none →
      RepoItem.description r =
        (if r.description = "" then "No description" else r.description)) ∧
    (∀ (p : PullRequest) (t : Nat), p.draft = false → p.merged = false →
      p.createdAt = some t →
      PRItem.description p = "by " ++ p.userLogin ++ " • Created " ++ formatDate t) ∧
    (∀ c : PullRequestComment, c.line = 0 → c.originalLine = 0 →
      CommentItem.currentLineSeg c = "" ∧ CommentItem.origLineSeg c = "") ∧
    RepoItem.description repoNoDescNoLang = "No description • Updated 20240101" := by
  refine ⟨fun r => ⟨rfl, rfl⟩, fun p => ⟨rfl, rfl⟩, fun c => ⟨rfl, rfl⟩, ?_, ?_, ?_, ?_, ?_, rfl⟩
  · intro r t h1 h2
    simp [RepoItem.description, h1, h2, formatDate]
    intro hc
    exact absurd hc (natToString_ne_empty t)
  · intro r h1 h2
    simp [RepoItem.description, h1, h2]
  · intro r h1 h2
    simp [RepoItem.description, h1, h2]
  · intro p t h1 h2 h3
    simp [PRItem.description, h1, h2, h3, formatDate]
  · intro c h1 h2
    constructor
    · simp [CommentItem.currentLineSeg, h1]
    · simp [CommentItem.origLineSeg, h1, h2]

/-- Witness for C8: the conditional-segment conjuncts applied to the concrete
record `repoNoDescNoLang` and its relatives. -/
theorem claim_c8_witness :
    RepoItem.description repoNoDescNoLang =
      (if repoNoDescNoLang.description = "" then "No description"
        else repoNoDescNoLang.description) ++ " • Updated " ++ formatDate 20240101 :=
  claim_c8.2.2.2.1 repoNoDescNoLang 20240101 rfl rfl

/-- C9: the line-range suffix of a comment description renders a multi-line
range (start line set and different from the end line) as `L<start>-<end>`
and otherwise as `L<end>`; the `(orig L...)` suffix is built by the same
single/multi rule and is appended only when the original line differs from the
current line; and the three concrete scenarios evaluate as stated. -/
theorem claim_c9 :
    (∀ c : PullRequestComment, c.line ≠ 0 → c.startLine ≠ 0 → c.startLine ≠ c.line →
      CommentItem.currentLineSeg c =
        " L" ++ toString c.startLine ++ "-" ++ toString c.line) ∧
    (∀ c : PullRequestComment, c.line ≠ 0 → (c.startLine = 0 ∨ c.startLine = c.line) →
      CommentItem.currentLineSeg c = " L" ++ toString c.line) ∧
    (∀ c : PullRequestComment, c.originalLine = c.line →
      CommentItem.origLineSeg c = "") ∧
    (∀ c : PullRequestComment, c.originalLine ≠ 0 → c.originalLine ≠ c.line →
      c.originalStartLine ≠ 0 → c.originalStartLine ≠ c.originalLine →
      CommentItem.origLineSeg c =
        " (orig L" ++ toString c.originalStartLine ++ "-" ++ toString c.originalLine ++ ")") ∧
    (∀ c : PullRequestComment, c.originalLine ≠ 0 → c.originalLine ≠ c.line →
      (c.originalStartLine = 0 ∨ c.originalStartLine = c.originalLine) →
      CommentItem.origLineSeg c = " (orig L" ++ toString c.originalLine ++ ")") ∧
    CommentItem.description commentL12 = "by alice • 100 • main.go L12" ∧
    CommentItem.description commentL15to20 = "by alice • 100 • main.go L15-20" ∧
    CommentItem.description commentOrig = "by alice • 100 • main.go L20 (orig L8-10)" := by
  refine ⟨?_, ?_, ?_, ?_, ?_, rfl, rfl, rfl⟩
  · intro c h1 h2 h3
    simp [CommentItem.currentLineSeg, h1, h2, h3]
  · intro c h1 h2
    rcases h2 with h2 | h2 <;> simp [CommentItem.currentLineSeg, h1, h2]
  · intro c h1
    simp [CommentItem.origLineSeg, h1]
  · intro c h1 h2 h3 h4
    simp [CommentItem.origLineSeg, h1, h2, h3, h4]
  · intro c h1 h2 h3
    rcases h3 with h3 | h3 <;> simp [CommentItem.origLineSeg, h1, h2, h3]

/-- Witness for C9: the multi-line rule applied to the concrete comment
`commentL15to20`. -/
theorem claim_c9_witness :
    CommentItem.currentLineSeg commentL15to20 =
      " L" ++ toString commentL15to20.startLine ++ "-" ++ toString commentL15to20.line :=
  claim_c9.1 commentL15to20 (by decide) (by decide) (by decide)

/-! ### Claims about the fetch-time sorts -/

/-- C6: for every input whose pull requests carry pairwise distinct numbers
(as any list returned for one repository does), the list delivered by
`FetchPRs` is sorted strictly descending by number: at any two positions
`i < j` of the sorted output, the number at `i` strictly exceeds the number
at `j`. -/
theorem claim_c6 (l : List PullRequest) (hn : (l.map PullRequest.number).Nodup)
    (i j : Nat) (hij : i < j) (hj : j < (sortPRs l).length) :
    ((sortPRs l).get ⟨j, hj⟩).number <
      ((sortPRs l).get ⟨i, Nat.lt_trans hij hj⟩).number := by
  have hs : List.Sorted prKeep (sortPRs l) := List.sorted_insertionSort prKeep l
  have hrel : prKeep ((sortPRs l).get ⟨i, Nat.lt_trans hij hj⟩) ((sortPRs l).get ⟨j, hj⟩) :=
    hs.rel_get_of_lt hij
  have hle : ((sortPRs l).get ⟨j, hj⟩).number ≤
      ((sortPRs l).get ⟨i, Nat.lt_trans hij hj⟩).number := by
    unfold prKeep prLessFn at hrel
    simp only [decide_eq_false_iff_not, Nat.not_lt, gt_iff_lt] at hrel
    exact hrel
  have hperm : List.Perm (sortPRs l) l := List.perm_insertionSort prKeep l
  have hpl : List.Pairwise (fun a b => a.number ≠ b.number) l := by
    simpa [List.Nodup, List.pairwise_map] using hn
  have hps : List.Pairwise (fun a b => a.number ≠ b.number) (sortPRs l) :=
    (hperm.pairwise_iff fun hxy h => hxy h.symm).mpr hpl
  have hne := List.pairwise_iff_get.mp hps ⟨i, Nat.lt_trans hij hj⟩ ⟨j, hj⟩ hij
  omega

/-- Witness for C6: in the sort of the concrete two-element list
`[prOne, prTwo]`, the entry at position 1 has a smaller number than the entry
at position 0. -/
theorem claim_c6_witness :
    ((sortPRs [prOne, prTwo]).get ⟨1, by decide⟩).number <
      ((sortPRs [prOne, prTwo]).get ⟨0, by decide⟩).number :=
  claim_c6 [prOne, prTwo] (by decide) 0 1 (by decide) (by decide)

/-- C7: in the list delivered by `FetchComments`, whenever both entries at
positions `i < j` carry update timestamps, the one placed first is at least as
late (so a strictly later timestamp always precedes an earlier one), and a
timestampless entry is never followed by a timestamped one (nulls sort after
all non-nulls). Ties and both-absent pairs get no ordering guarantee, matching
the claim. -/
theorem claim_c7 (l : List PullRequestComment) (i j : Nat) (hij : i < j)
    (hj : j < (sortComments l).length) :
    (∀ x y : Nat,
      ((sortComments l).get ⟨i, Nat.lt_trans hij hj⟩).updatedAt = some x →
      ((sortComments l).get ⟨j, hj⟩).updatedAt = some y → y ≤ x) ∧
    (((sortComments l).get ⟨i, Nat.lt_trans hij hj⟩).updatedAt = none →
      ((sortComments l).get ⟨j, hj⟩).updatedAt = none) := by
  have hs : List.Sorted commentKeep (sortComments l) :=
    List.sorted_insertionSort commentKeep l
  have hrel : commentKeep ((sortComments l).get ⟨i, Nat.lt_trans hij hj⟩)
      ((sortComments l).get ⟨j, hj⟩) := hs.rel_get_of_lt hij
  unfold commentKeep commentLessFn at hrel
  constructor
  · intro x y hx hy
    rw [hx, hy] at hrel
    simp only [decide_eq_false_iff_not, Nat.not_lt, gt_iff_lt] at hrel
    exact hrel
  · intro hx
    rcases hy : ((sortComments l).get ⟨j, hj⟩).updatedAt with _ | y
    · rfl
    · rw [hx, hy] at hrel
      simp at hrel

/-- Witness for C7: in the sort of two timestampless comments, a null at
position 0 forces a null at position 1. -/
theorem claim_c7_witness :
    ((sortComments [commentNoTimeA, commentNoTimeB]).get ⟨1, by decide⟩).updatedAt = none :=
  (claim_c7 [commentNoTimeA, commentNoTimeB] 0 1 (by decide) (by decide)).2 (by decide)

/-- Concrete state at the CommentDetail level with a normal (non-loading,
non-error) display. -/
def detailApp : App :=
  { initialApp with
      state := .commentDetail
      currentRepo := some repoNoDescNoLang
      currentPR := some prOne
      currentComment := some commentL12
      loading := false }

/-- Concrete root-level state in which a filter is being typed into the
repository list. -/
def filteringApp : App :=
  { initialApp with
      loading := false
      repoList :=
        { items := [repoNoDescNoLang], index := 0, width := 0, height := 0
          settingFilter := true } }

/-! ### Claims about the navigation core -/

/-- C5: applying an error-free fetch-comments result stores exactly the
incoming comments whose reply target is absent when `showReplies` is false and
all incoming comments when it is true; the filter is recomputed from the
incoming collection and the current toggle alone (two states that agree on the
toggle store identical lists whatever they held before); and in the concrete
scenario, five incoming comments with two replies yield three entries, the
replies toggle re-issues the fetch, and re-receiving the same five yields five
entries. -/
theorem claim_c5 :
    (∀ (a : App) (cs : List PullRequestComment), a.showReplies = false →
      (a.update (.commentsMsg (.ok cs))).1.commentList.items =
        cs.filter (fun c => c.inReplyTo == 0)) ∧
    (∀ (a : App) (cs : List PullRequestComment), a.showReplies = true →
      (a.update (.commentsMsg (.ok cs))).1.commentList.items = cs) ∧
    (∀ (a b : App) (cs : List PullRequestComment), a.showReplies = b.showReplies →
      (a.update (.commentsMsg (.ok cs))).1.commentList.items =
        (b.update (.commentsMsg (.ok cs))).1.commentList.items) ∧
    c5afterFirstFetch.commentList.items.length = 3 ∧
    c5afterToggle.showReplies = true ∧
    (c5afterFirstFetch.update (.key .keyR)).2 =
      some (.fetchComments repoNoDescNoLang prOne) ∧
    c5afterSecondFetch.commentList.items.length = 5 := by
  refine ⟨?_, ?_, ?_, rfl, rfl, rfl, rfl⟩
  · intro a cs h
    simp [App.update, App.updateActiveWidget, ListW.setItems, h]
  · intro a cs h
    simp [App.update, App.updateActiveWidget, ListW.setItems, h]
  · intro a b cs h
    simp [App.update, App.updateActiveWidget, ListW.setItems, h]

/-- Witness for C5: the replies-hidden filter applied to the concrete scenario
state and the five-comment input. -/
theorem claim_c5_witness :
    (commentsScenarioApp.update (.commentsMsg (.ok fiveComments))).1.commentList.items =
      fiveComments.filter (fun c => c.inReplyTo == 0) :=
  claim_c5.1 commentsScenarioApp fiveComments rfl

/-- C3: processing a terminal-resize event while in CommentDetail (with the
normal, non-loading and non-error display, so that the detail layout is the
one rendered) leaves the detail viewport at height `max (terminalHeight - 6) 1`
and width `terminalWidth - 4` — expressions in the new terminal dimensions
alone, so the result is deterministic and independent of the prior viewport
state. -/
theorem claim_c3 (a : App) (w h : Int) (hs : a.state = State.commentDetail)
    (hl : a.loading = false) (he : a.err = none) :
    (a.processEvent (.windowSize w h)).1.commentViewport.height = max (h - 6) 1 ∧
    (a.processEvent (.windowSize w h)).1.commentViewport.width = w - 4 := by
  constructor <;>
    simp [App.processEvent, App.update, App.updateActiveWidget, App.viewFix,
      hs, hl, he, ListW.setSize]

/-- Witness for C3: an 80x24 resize of a concrete CommentDetail state. -/
theorem claim_c3_witness :
    (detailApp.processEvent (.windowSize 80 24)).1.commentViewport.height =
        max (24 - 6) 1 ∧
      (detailApp.processEvent (.windowSize 80 24)).1.commentViewport.width = 80 - 4 :=
  claim_c3 detailApp 80 24 rfl rfl rfl

/-- C4: when the Back key arrives while a filter is being entered on the
current level's list, the key is delegated to that list widget (which clears
the filter) and no navigation or other state change occurs; when no filter is
being entered and the state is not the root, the state moves to the previous
level and exactly the selection reference owned by the level being left is
cleared, everything else being left untouched and no command issued. -/
theorem claim_c4 (a : App) :
    (a.state = State.repos → a.repoList.settingFilter = true →
      a.update (.key .esc) = ({ a with repoList := a.repoList.escWhileFiltering }, none)) ∧
    (a.state = State.prs → a.prList.settingFilter = true →
      a.update (.key .esc) = ({ a with prList := a.prList.escWhileFiltering }, none)) ∧
    (a.state = State.comments → a.commentList.settingFilter = true →
      a.update (.key .esc) = ({ a with commentList := a.commentList.escWhileFiltering }, none)) ∧
    (a.state = State.prs → a.prList.settingFilter = false →
      a.update (.key .esc) = ({ a with state := State.repos, currentRepo := none }, none)) ∧
    (a.state = State.comments → a.commentList.settingFilter = false →
      a.update (.key .esc) = ({ a with state := State.prs, currentPR := none }, none)) ∧
    (a.state = State.commentDetail →
      a.update (.key .esc) = ({ a with state := State.comments, currentComment := none }, none)) := by
  refine ⟨?_, ?_, ?_, ?_, ?_, ?_⟩ <;> intro h1 <;>
    first
    | (intro h2; simp [App.update, App.handleBack, h1, h2])
    | simp [App.update, App.handleBack, h1]

/-- Witness for C4: Back during filter entry on the concrete root state
delegates to the repository list and does not navigate. -/
theorem claim_c4_witness :
    filteringApp.update (.key .esc) =
      ({ filteringApp with repoList := filteringApp.repoList.escWhileFiltering }, none) :=
  (claim_c4 filteringApp).1 rfl rfl

/-- C10: the Back key at the root Repositories level with no filter being
entered is a no-op — the state, every selection reference and every list are
unchanged (the result is the very same application state) and no command, in
particular no quit, is issued. -/
theorem claim_c10 (a : App) (hs : a.state = State.repos)
    (hf : a.repoList.settingFilter = false) :
    a.update (.key .esc) = (a, none) := by
  simp [App.update, App.handleBack, hs, hf]

/-- Witness for C10: Back on the freshly constructed application state. -/
theorem claim_c10_witness : initialApp.update (.key .esc) = (initialApp, none) :=
  claim_c10 initialApp rfl rfl

/-! ### The navigation invariant (C1) -/

/-- The hierarchy invariant: a selection reference at depth `d` is set iff the
current state sits at depth at least `d`. -/
def App.navInvariant (a : App) : Prop :=
  (a.currentRepo.isSome ↔ 1 ≤ a.state.depth) ∧
  (a.currentPR.isSome ↔ 2 ≤ a.state.depth) ∧
  (a.currentComment.isSome ↔ 3 ≤ a.state.depth)

/-- Two states at most one hierarchy level apart. -/
def adjacentDepth (s t : State) : Prop :=
  t.depth ≤ s.depth + 1 ∧ s.depth ≤ t.depth + 1

/-- Every state is adjacent to itself. -/
theorem adjacentDepth_refl (s : State) : adjacentDepth s s :=
  ⟨Nat.le_succ _, Nat.le_succ _⟩

/-- The render pass never moves the navigation state or the selection
references. -/
theorem viewFix_preserves (a : App) :
    a.viewFix.state = a.state ∧ a.viewFix.currentRepo = a.currentRepo ∧
    a.viewFix.currentPR = a.currentPR ∧ a.viewFix.currentComment = a.currentComment := by
  unfold App.viewFix
  split_ifs <;> simp

/-- One `Update` call preserves the hierarchy invariant and moves the state by
at most one level. -/
theorem update_nav (a : App) (m : Msg) (h : a.navInvariant) :
    (a.update m).1.navInvariant ∧ adjacentDepth a.state (a.update m).1.state := by
  obtain ⟨h1, h2, h3⟩ := h
  cases m with
  | windowSize w hh =>
    exact ⟨⟨h1, h2, h3⟩, adjacentDepth_refl _⟩
  | key k =>
    cases k with
    | quitKey => exact ⟨⟨h1, h2, h3⟩, adjacentDepth_refl _⟩
    | esc =>
      rcases hs : a.state with _ | _ | _ | _
      case repos =>
        simp only [App.update, App.handleBack, hs]
        split_ifs with hf <;>
          exact ⟨⟨by simp_all [State.depth], by simp_all [State.depth],
            by simp_all [State.depth]⟩, by simp_all [adjacentDepth, State.depth]⟩
      case prs =>
        simp only [App.update, App.handleBack, hs]
        split_ifs with hf <;>
          exact ⟨⟨by simp_all [State.depth], by simp_all [State.depth],
            by simp_all [State.depth]⟩, by simp_all [adjacentDepth, State.depth]⟩
      case comments =>
        simp only [App.update, App.handleBack, hs]
        split_ifs with hf <;>
          exact ⟨⟨by simp_all [State.depth], by simp_all [State.depth],
            by simp_all [State.depth]⟩, by simp_all [adjacentDepth, State.depth]⟩
      case commentDetail =>
        simp only [App.update, App.handleBack, hs]
        exact ⟨⟨by simp_all [State.depth], by simp_all [State.depth],
          by simp_all [State.depth]⟩, by simp_all [adjacentDepth, State.depth]⟩
    | enter =>
      rcases hs : a.state with _ | _ | _ | _
      case repos =>
        simp only [App.update, App.handleEnter, hs]
        rcases hsel : a.repoList.selectedItem with _ | r
        · exact ⟨⟨by simp_all [State.depth], by simp_all [State.depth],
            by simp_all [State.depth]⟩, by simp_all [adjacentDepth, State.depth]⟩
        · exact ⟨⟨by simp_all [State.depth], by simp_all [State.depth],
            by simp_all [State.depth]⟩, by simp_all [adjacentDepth, State.depth]⟩
      case prs =>
        simp only [App.update, App.handleEnter, hs]
        rcases hsel : a.prList.selectedItem with _ | p
        · exact ⟨⟨by simp_all [State.depth], by simp_all [State.depth],
            by simp_all [State.depth]⟩, by simp_all [adjacentDepth, State.depth]⟩
        · exact ⟨⟨by simp_all [State.depth], by simp_all [State.depth],
            by simp_all [State.depth]⟩, by simp_all [adjacentDepth, State.depth]⟩
      case comments =>
        simp only [App.update, App.handleEnter, hs]
        rcases hsel : a.commentList.selectedItem with _ | c
        · exact ⟨⟨by simp_all [State.depth], by simp_all [State.depth],
            by simp_all [State.depth]⟩, by simp_all [adjacentDepth, State.depth]⟩
        · exact ⟨⟨by simp_all [State.depth], by simp_all [State.depth],
            by simp_all [State.depth]⟩, by simp_all [adjacentDepth, State.depth]⟩
      case commentDetail =>
        simp only [App.update, App.handleEnter, hs]
        exact ⟨⟨by simp_all [State.depth], by simp_all [State.depth],
          by simp_all [State.depth]⟩, by simp_all [adjacentDepth, State.depth]⟩
    | keyC =>
      simp only [App.update, App.updateActiveWidget]
      split_ifs with hd
      · simp only [App.handleCopyPrompt]
        rcases hr : a.currentRepo with _ | r <;> rcases hp : a.currentPR with _ | p <;>
          rcases hc : a.currentComment with _ | c <;>
          exact ⟨⟨by simp_all, by simp_all, by simp_all⟩, adjacentDepth_refl _⟩
      · exact ⟨⟨h1, h2, h3⟩, adjacentDepth_refl _⟩
    | keyT =>
      simp only [App.update, App.handleTogglePromptMode, App.updateActiveWidget]
      split_ifs with hd <;> exact ⟨⟨h1, h2, h3⟩, adjacentDepth_refl _⟩
    | keyR =>
      simp only [App.update, App.handleToggleReplies, App.updateActiveWidget]
      split_ifs with hd <;> exact ⟨⟨h1, h2, h3⟩, adjacentDepth_refl _⟩
    | scrollUp =>
      simp only [App.update, App.updateActiveWidget]
      split_ifs with hd <;> exact ⟨⟨h1, h2, h3⟩, adjacentDepth_refl _⟩
    | scrollDown =>
      simp only [App.update, App.updateActiveWidget]
      split_ifs with hd <;> exact ⟨⟨h1, h2, h3⟩, adjacentDepth_refl _⟩
    | halfPageUp =>
      simp only [App.update, App.updateActiveWidget]
      split_ifs with hd <;> exact ⟨⟨h1, h2, h3⟩, adjacentDepth_refl _⟩
    | halfPageDown =>
      simp only [App.update, App.updateActiveWidget]
      split_ifs with hd <;> exact ⟨⟨h1, h2, h3⟩, adjacentDepth_refl _⟩
    | top =>
      simp only [App.update, App.updateActiveWidget]
      split_ifs with hd <;> exact ⟨⟨h1, h2, h3⟩, adjacentDepth_refl _⟩
    | bottom =>
      simp only [App.update, App.updateActiveWidget]
      split_ifs with hd <;> exact ⟨⟨h1, h2, h3⟩, adjacentDepth_refl _⟩
    | other => exact ⟨⟨h1, h2, h3⟩, adjacentDepth_refl _⟩
  | reposMsg res =>
    rcases res with e | repos <;> exact ⟨⟨h1, h2, h3⟩, adjacentDepth_refl _⟩
  | prsMsg res =>
    rcases res with e | prs <;> exact ⟨⟨h1, h2, h3⟩, adjacentDepth_refl _⟩
  | commentsMsg res =>
    rcases res with e | cs <;> exact ⟨⟨h1, h2, h3⟩, adjacentDepth_refl _⟩
  | clearCopyStatus => exact ⟨⟨h1, h2, h3⟩, adjacentDepth_refl _⟩

/-- C1: the initial state satisfies the hierarchy invariant; every event step
(the `Update` call followed by the render pass) preserves it and moves the
navigation state by at most one level; hence in every state reachable from the
initial one, `currentRepo` is set iff the state is at least PullRequests,
`currentPR` iff at least Comments, and `currentComment` iff CommentDetail. -/
theorem claim_c1 :
    initialApp.navInvariant ∧
    (∀ (a : App) (m : Msg), a.navInvariant →
      (a.processEvent m).1.navInvariant ∧
      adjacentDepth a.state (a.processEvent m).1.state) ∧
    (∀ ms : List Msg, (runApp ms).navInvariant) := by
  have hbase : initialApp.navInvariant := by
    refine ⟨?_, ?_, ?_⟩ <;> simp [initialApp, State.depth]
  have hstep : ∀ (a : App) (m : Msg), a.navInvariant →
      (a.processEvent m).1.navInvariant ∧
      adjacentDepth a.state (a.processEvent m).1.state := by
    intro a m h
    obtain ⟨⟨i1, i2, i3⟩, hadj⟩ := update_nav a m h
    obtain ⟨hvs, hvr, hvp, hvc⟩ := viewFix_preserves (a.update m).1
    refine ⟨⟨?_, ?_, ?_⟩, ?_⟩
    · show ((a.update m).1.viewFix.currentRepo).isSome = true ↔
        1 ≤ (a.update m).1.viewFix.state.depth
      rw [hvr, hvs]; exact i1
    · show ((a.update m).1.viewFix.currentPR).isSome = true ↔
        2 ≤ (a.update m).1.viewFix.state.depth
      rw [hvp, hvs]; exact i2
    · show ((a.update m).1.viewFix.currentComment).isSome = true ↔
        3 ≤ (a.update m).1.viewFix.state.depth
      rw [hvc, hvs]; exact i3
    · show adjacentDepth a.state (a.update m).1.viewFix.state
      rw [hvs]; exact hadj
  refine ⟨hbase, hstep, ?_⟩
  intro ms
  suffices hgen : ∀ (l : List Msg) (a : App), a.navInvariant →
      (l.foldl (fun a m => (a.processEvent m).1) a).navInvariant by
    exact hgen ms initialApp hbase
  intro l
  induction l with
  | nil => intro a ha; exact ha
  | cons m l ih => intro a ha; exact ih _ (hstep a m ha).1

/-- Witness for C1: one concrete step from the initial state. -/
theorem claim_c1_witness :
    (initialApp.processEvent (.key .enter)).1.navInvariant ∧
    adjacentDepth initialApp.state (initialApp.processEvent (.key .enter)).1.state :=
  claim_c1.2.1 initialApp (.key .enter) claim_c1.1

/-! ### Error handling (C2) -/

/-- Scenario trace for C2: a successful repository fetch, drilling into the
repository, a failing pull-request fetch, backing out, re-entering (which
re-issues the fetch) and a successful pull-request fetch result. -/
def c2trace : List Msg :=
  [.reposMsg (.ok [repoNoDescNoLang]), .key .enter, .prsMsg (.error "boom"),
    .key .esc, .key .enter, .prsMsg (.ok [prOne])]

/-- Concrete application state carrying a stored fetch error. -/
def c2errApp : App := { initialApp with loading := false, err := some "boom" }

/-- Counterexample for C2: after a fetch error, backing out, re-entering the
level (which does re-issue the fetch) and receiving a successful result, the
stored error is still present and the display is still the full-screen error
state, not the normal pull-request list the claim promises. -/
theorem claim_c2_counterexample :
    (runApp c2trace).err = some "boom" ∧
    (runApp c2trace).state = State.prs ∧
    (runApp c2trace).loading = false ∧
    (runApp c2trace).viewScreen = Screen.errorScreen "boom" ∧
    (runApp c2trace).viewScreen ≠ Screen.contentScreen State.prs := by
  refine ⟨rfl, rfl, rfl, rfl, ?_⟩
  intro hcon
  rw [show (runApp c2trace).viewScreen = Screen.errorScreen "boom" from rfl] at hcon
  exact Screen.noConfusion hcon

/-- C2 as amended: a fetch-result message carrying an error sets loading to
false, stores the error, renders as a full-screen error state with the
level's list left untouched (no partial list), and issues no command (no
automatic retry); re-entering a level re-issues its fetch; but the stored
error is never cleared, so even a subsequent successful fetch result leaves
the full-screen error display in place (the fetched items are nonetheless
stored in the list). -/
theorem claim_c2_amended :
    (∀ (a : App) (e : GoError),
      (a.update (.reposMsg (.error e))).1.loading = false ∧
      (a.update (.reposMsg (.error e))).1.err = some e ∧
      (a.update (.reposMsg (.error e))).1.viewScreen = Screen.errorScreen e ∧
      (a.update (.reposMsg (.error e))).1.repoList = a.repoList ∧
      (a.update (.reposMsg (.error e))).2 = none) ∧
    (∀ (a : App) (e : GoError),
      (a.update (.prsMsg (.error e))).1.loading = false ∧
      (a.update (.prsMsg (.error e))).1.err = some e ∧
      (a.update (.prsMsg (.error e))).1.viewScreen = Screen.errorScreen e ∧
      (a.update (.prsMsg (.error e))).1.prList = a.prList ∧
      (a.update (.prsMsg (.error e))).2 = none) ∧
    (∀ (a : App) (e : GoError),
      (a.update (.commentsMsg (.error e))).1.loading = false ∧
      (a.update (.commentsMsg (.error e))).1.err = some e ∧
      (a.update (.commentsMsg (.error e))).1.viewScreen = Screen.errorScreen e ∧
      (a.update (.commentsMsg (.error e))).1.commentList = a.commentList ∧
      (a.update (.commentsMsg (.error e))).2 = none) ∧
    (∀ (a : App) (r : Repository), a.state = State.repos →
      a.repoList.selectedItem = some r →
      (a.update (.key .enter)).2 = some (Cmd.fetchPRs r)) ∧
    (∀ (a : App) (e : GoError) (l : List PullRequest), a.err = some e →
      (a.update (.prsMsg (.ok l))).1.err = some e ∧
      (a.update (.prsMsg (.ok l))).1.prList.items = l ∧
      (a.update (.prsMsg (.ok l))).1.viewScreen = Screen.errorScreen e) := by
  refine ⟨?_, ?_, ?_, ?_, ?_⟩
  · intro a e
    refine ⟨rfl, rfl, ?_, rfl, rfl⟩
    simp [App.update, App.viewScreen]
  · intro a e
    refine ⟨rfl, rfl, ?_, rfl, rfl⟩
    simp [App.update, App.viewScreen]
  · intro a e
    refine ⟨rfl, rfl, ?_, rfl, rfl⟩
    simp [App.update, App.viewScreen]
  · intro a r hs hsel
    simp [App.update, App.handleEnter, hs, hsel, App.fetchPRsCmd]
  · intro a e l he
    refine ⟨?_, ?_, ?_⟩ <;>
      simp [App.update, App.updateActiveWidget, App.viewScreen, ListW.setItems, he]

/-- Witness for C2 (amended): a successful pull-request result applied to a
concrete state with a stored error keeps the error and the error screen. -/
theorem claim_c2_amended_witness :
    (c2errApp.update (.prsMsg (.ok [prOne]))).1.err = some "boom" ∧
    (c2errApp.update (.prsMsg (.ok [prOne]))).1.prList.items = [prOne] ∧
    (c2errApp.update (.prsMsg (.ok [prOne]))).1.viewScreen = Screen.errorScreen "boom" :=
  claim_c2_amended.2.2.2.2 c2errApp "boom" [prOne] rfl

end Nitpick
